import Mathlib

/-!
Shallow embedding of the research subgraph of `src/app/graph/research_graph.py`
and of the tool entry point `deep_market_research` of `src/app/graph/nodes.py`.

The pipeline is a LangGraph `StateGraph` over `ResearchState`.  Nodes return
partial updates (Python dicts); the `search_results` channel carries the
reducer `operator.add` (list concatenation), every other channel is
overwritten by the last write.  Conditional edges are evaluated on the state
as updated by the node that just ran; all conditional edges attached to a
node are evaluated after each run of that node, and the next superstep's
tasks are the union of the `Send` packets they return plus the (deduplicated)
plain node targets.  External calls (Tavily search, the structured-output
LLM chains) are modelled as explicit function parameters gathered in `Env`.
-/

/-- `ResearchQuery` (research_graph.py lines 33-42). -/
structure ResearchQuery where
  search_query : String
  purpose : String
deriving DecidableEq, Repr

/-- `ResearchPlan` (research_graph.py lines 44-53).  The "3 to 5" of the
`queries` field lives only in the pydantic `description` (prompt guidance):
no length validation is attached to the field. -/
structure ResearchPlan where
  queries : List ResearchQuery
  research_focus : String
deriving DecidableEq, Repr

/-- `ResearchResult` (research_graph.py lines 55-60). -/
structure ResearchResult where
  query : String
  purpose : String
  content : String
  key_insights : List String
deriving DecidableEq, Repr

/-- The `Literal["pass", "fail"]` grade of `QualityFeedback`. -/
inductive Grade where
  | pass
  | fail
deriving DecidableEq, Repr

/-- `QualityFeedback` (research_graph.py lines 62-75). -/
structure QualityFeedback where
  grade : Grade
  missing_aspects : List String
  follow_up_queries : List ResearchQuery
deriving DecidableEq, Repr

/-- `FinalReport` (research_graph.py lines 77-103). -/
structure FinalReport where
  title : String
  executive_summary : String
  detailed_analysis : String
  key_insights : List String
  recommendations : List String
  methodology : String
  sources_summary : String
deriving DecidableEq, Repr

/-- `ResearchState` (research_graph.py lines 107-114).  Keys that may be
absent from the state dict before their producing node has run are
`Option`s; `search_results` is the `Annotated[..., add]` accumulator. -/
structure ResearchState where
  topic : String
  plan : Option ResearchPlan
  search_results : List ResearchResult
  quality_check : Option QualityFeedback
  research_iterations : Option Nat
  report : Option FinalReport
deriving DecidableEq, Repr

/-- `state.get("research_iterations", 0)`, the read used by
`quality_checker_node`, `map_follow_up_queries` and
`route_after_quality_check`. -/
def getIter (s : ResearchState) : Nat :=
  s.research_iterations.getD 0

/-- The partial update dict a node returns.  A field left at its default
means the node did not write that key. -/
structure StateUpdate where
  plan : Option ResearchPlan := none
  search_results : List ResearchResult := []
  quality_check : Option QualityFeedback := none
  research_iterations : Option Nat := none
  report : Option FinalReport := none
deriving DecidableEq, Repr

/-- Last-write-wins merge for a plain (reducer-free) channel. -/
def ov {α : Type} : Option α → Option α → Option α
  | some v, _ => some v
  | none, b => b

/-- Apply one node's update dict to the graph state: `search_results`
concatenates (reducer `operator.add`), every other present key overwrites. -/
def applyUpdate (s : ResearchState) (u : StateUpdate) : ResearchState :=
  { topic := s.topic
    plan := ov u.plan s.plan
    search_results := s.search_results ++ u.search_results
    quality_check := ov u.quality_check s.quality_check
    research_iterations := ov u.research_iterations s.research_iterations
    report := ov u.report s.report }

/-- A task of one superstep: either a graph node reached by name, or an
`enhanced_researcher_node` `Send` packet carrying `query`, `purpose` and the
shared `topic` (research_graph.py lines 260-264 and 398-402). -/
inductive Node where
  | planner
  | researcher (query : String) (purpose : String) (topic : String)
  | qc
  | synthesizer
deriving DecidableEq, Repr

/-- The update written by `enhanced_planner_node` on success
(research_graph.py line 253): the produced plan, and the iteration counter
initialised to 0. -/
def plannerUpdate (p : ResearchPlan) : StateUpdate :=
  { plan := some p, research_iterations := some 0 }

/-- `enhanced_planner_node` (research_graph.py lines 236-253) with the
structured-output chain call made explicit: the node performs no try/except
and no validation of its own, so an adapter failure propagates and any
successfully parsed plan — of any length — is accepted. -/
def enhanced_planner_node (outcome : Except String ResearchPlan) :
    Except String StateUpdate :=
  outcome.map plannerUpdate

/-- The snippet concatenation
`"\n".join([f"- {r['content']}" for r in response.get('results', [])])`
(research_graph.py line 279). -/
def rawContentOf (snippets : List String) : String :=
  String.intercalate "\n" (snippets.map (fun c => "- " ++ c))

/-- The insight-extraction prompt f-string (research_graph.py lines 282-291). -/
def analysisPrompt (topic purpose query raw_content : String) : String :=
  "Analiza el siguiente contenido de búsqueda y extrae insights clave:\n\n" ++
  "Tema: " ++ topic ++ "\n" ++
  "Propósito: " ++ purpose ++ "\n" ++
  "Consulta: " ++ query ++ "\n\n" ++
  "Contenido:\n" ++ raw_content ++ "\n\n" ++
  "Extrae 3-5 insights específicos y valiosos del contenido que sean relevantes para el propósito de investigación."

/-- The list comprehension of research_graph.py line 295: strip each line of
the LLM answer, keep the non-empty ones not starting with `#`, take the
first 5. -/
def extractInsights (content : String) : List String :=
  (((content.splitOn "\n").map String.trim).filter
    (fun i => i ≠ "" ∧ ¬ i.startsWith "#")).take 5

/-- The sentinel insight of the researcher's error path
(research_graph.py line 313). -/
def errorSentinel : String :=
  "Error en la búsqueda - información no disponible"

/-- `enhanced_researcher_node` (research_graph.py lines 268-315).
`search` stands for `async_tavily_search` (query, max_results); `llm` for
the insight-extraction `ChatOpenAI.ainvoke` call on the analysis prompt.
The single `except Exception` covers both adapter calls, so a failure of
either produces the same one-element error update. -/
def enhanced_researcher_node (search : String → Nat → Except String (List String))
    (llm : String → Except String String)
    (query purpose topic : String) : StateUpdate :=
  match search query 4 with
  | Except.error e =>
      { search_results :=
          [{ query := query, purpose := purpose
             content := "Error al obtener información: " ++ e
             key_insights := [errorSentinel] }] }
  | Except.ok snippets =>
      match llm (analysisPrompt topic purpose query (rawContentOf snippets)) with
      | Except.error e =>
          { search_results :=
              [{ query := query, purpose := purpose
                 content := "Error al obtener información: " ++ e
                 key_insights := [errorSentinel] }] }
      | Except.ok content =>
          { search_results :=
              [{ query := query, purpose := purpose
                 content := rawContentOf snippets
                 key_insights := extractInsights content }] }

/-- The research summary built by `quality_checker_node`
(research_graph.py lines 321-324): each result contributes its query, its
purpose and only its first 3 key insights (`res.key_insights[:3]`). -/
def research_summary (results : List ResearchResult) : String :=
  String.intercalate "\n\n" (results.map (fun res =>
    "**Búsqueda**: " ++ res.query ++
    "\n**Propósito**: " ++ res.purpose ++
    "\n**Insights**: " ++ String.intercalate ", " (res.key_insights.take 3)))

/-- The research data string built by `enhanced_synthesizer_node`
(research_graph.py lines 346-352): every field of every accumulated result,
with the full untruncated `key_insights` list. -/
def research_data (results : List ResearchResult) : String :=
  String.intercalate "\n\n" (results.map (fun res =>
    "### Investigación: " ++ res.query ++
    "\n**Propósito**: " ++ res.purpose ++
    "\n**Contenido**: " ++ res.content ++
    "\n**Insights Clave**: " ++ String.intercalate "; " res.key_insights))

/-- `state["plan"].queries` as read by the routing and synthesizer code.
The planner has always set the key when these readers run. -/
def planQueries (s : ResearchState) : List ResearchQuery :=
  match s.plan with
  | some p => p.queries
  | none => []

/-- `state["plan"].research_focus`. -/
def planFocus (s : ResearchState) : String :=
  match s.plan with
  | some p => p.research_focus
  | none => ""

/-- The methodology f-string of `enhanced_synthesizer_node`
(research_graph.py lines 354-360). -/
def methodology (s : ResearchState) : String :=
  "Metodología de Investigación:\n" ++
  "1. Planificación estratégica con " ++ toString (planQueries s).length ++
  " consultas especializadas\n" ++
  "2. Investigación web avanzada usando Tavily API con búsqueda profunda\n" ++
  "3. Análisis automatizado de contenido para extracción de insights\n" ++
  "4. " ++ toString (getIter s) ++ " iteración(es) de investigación\n" ++
  "5. Evaluación de calidad y síntesis final\n" ++
  "6. Enfoque: " ++ planFocus s

/-- The external calls of the pipeline, one per structured adapter: the
planner chain's plan, the quality chain's feedback (a function of topic,
summary and the reported iteration number), the Tavily search, the
researcher's insight LLM, and the synthesizer chain's report. -/
structure Env where
  planResult : ResearchPlan
  feedback : String → String → Nat → QualityFeedback
  search : String → Nat → Except String (List String)
  llm : String → Except String String
  synth : String → String → String → FinalReport

/-- `quality_checker_node` (research_graph.py lines 317-340): builds the
truncated summary, asks the quality chain, and writes the feedback together
with `research_iterations := state.get("research_iterations", 0) + 1` —
the increment happens whatever the grade is. -/
def quality_checker_node (env : Env) (s : ResearchState) : StateUpdate :=
  { quality_check :=
      some (env.feedback s.topic (research_summary s.search_results) (getIter s + 1))
    research_iterations := some (getIter s + 1) }

/-- `enhanced_synthesizer_node` (research_graph.py lines 342-377): one
report write, built from the topic, the methodology string and the full
research data. -/
def enhanced_synthesizer_node (env : Env) (s : ResearchState) : StateUpdate :=
  { report := some (env.synth s.topic (methodology s) (research_data s.search_results)) }

/-- `enhanced_map_queries` (research_graph.py lines 255-266): one
`Send("enhanced_researcher_node", ...)` per entry of `state["plan"].queries`,
carrying that query's `search_query` and `purpose` plus the shared topic. -/
def enhanced_map_queries (s : ResearchState) : List Node :=
  (planQueries s).map (fun query =>
    Node.researcher query.search_query query.purpose s.topic)

/-- `map_follow_up_queries` (research_graph.py lines 383-407): dispatch the
follow-up `Send`s iff a quality check exists, its grade is fail, the current
iteration count is below `max_iterations = 3` and the follow-up list is
non-empty; otherwise the empty list. -/
def map_follow_up_queries (s : ResearchState) : List Node :=
  match s.quality_check with
  | none => []
  | some fb =>
      if fb.grade = Grade.fail ∧ getIter s < 3 ∧ fb.follow_up_queries ≠ [] then
        fb.follow_up_queries.map (fun query =>
          Node.researcher query.search_query query.purpose s.topic)
      else []

/-- `route_after_quality_check` (research_graph.py lines 409-425): both the
guarded branch and the fall-through return `"enhanced_synthesizer"`.  The
`not quality_check` short-circuit of the Python condition is the `none`
match arm. -/
def route_after_quality_check (s : ResearchState) : Node :=
  match s.quality_check with
  | none => Node.synthesizer
  | some fb =>
      if fb.grade = Grade.pass ∨ 3 ≤ getIter s ∨ fb.follow_up_queries = [] then
        Node.synthesizer
      else
        Node.synthesizer

/-- The `Send` packets produced by the conditional edges attached to each
node (research_graph.py lines 443 and 449). -/
def sendTargets (s : ResearchState) : Node → List Node
  | Node.planner => enhanced_map_queries s
  | Node.qc => map_follow_up_queries s
  | _ => []

/-- The plain node targets produced after each node: the static edge
`enhanced_researcher_node → quality_checker` (line 446), the conditional
edge `route_after_quality_check` out of the quality checker (line 452), and
the terminal edge of the synthesizer (line 455). -/
def edgeTargets (s : ResearchState) : Node → List Node
  | Node.researcher _ _ _ => [Node.qc]
  | Node.qc => [route_after_quality_check s]
  | _ => []

/-- One pipeline superstep configuration: the shared state and the tasks of
the current superstep. -/
structure Config where
  state : ResearchState
  frontier : List Node
deriving DecidableEq, Repr

/-- Run one task on the superstep's state snapshot. -/
def runNode (env : Env) (s : ResearchState) : Node → StateUpdate
  | Node.planner => plannerUpdate env.planResult
  | Node.researcher query purpose topic =>
      enhanced_researcher_node env.search env.llm query purpose topic
  | Node.qc => quality_checker_node env s
  | Node.synthesizer => enhanced_synthesizer_node env s

/-- The state after one superstep: run every task of the frontier on the
current snapshot and merge the updates. -/
def stepState (env : Env) (c : Config) : ResearchState :=
  (c.frontier.map (runNode env c.state)).foldl applyUpdate c.state

/-- The tasks of the next superstep: every conditional edge is evaluated on
the updated state; `Send` packets are kept as-is, plain node targets are
deduplicated (a node reached by name runs once per superstep). -/
def stepFrontier (env : Env) (c : Config) : List Node :=
  (c.frontier.map (sendTargets (stepState env c))).flatten ++
    ((c.frontier.map (edgeTargets (stepState env c))).flatten).dedup

/-- One LangGraph superstep. -/
def step (env : Env) (c : Config) : Config :=
  { state := stepState env c, frontier := stepFrontier env c }

/-- The initial state passed by `deep_market_research`
(nodes.py lines 143-146): only `topic` and an empty `search_results`. -/
def initialState (topic : String) : ResearchState :=
  { topic := topic, plan := none, search_results := []
    quality_check := none, research_iterations := none, report := none }

/-- The pipeline starts with the planner as sole task (entry point,
research_graph.py line 440). -/
def initialConfig (topic : String) : Config :=
  { state := initialState topic, frontier := [Node.planner] }

/-- The pipeline after `n` supersteps. -/
def run (env : Env) (topic : String) : Nat → Config
  | 0 => initialConfig topic
  | n + 1 => step env (run env topic n)

/-- Number of quality-checker tasks in a frontier. -/
def countQC : List Node → Nat
  | [] => 0
  | Node.qc :: ts => countQC ts + 1
  | _ :: ts => countQC ts

/-- Number of researcher tasks in a frontier. -/
def countRes : List Node → Nat
  | [] => 0
  | Node.researcher _ _ _ :: ts => countRes ts + 1
  | _ :: ts => countRes ts

/-- Quality-checker executions during the first `n` supersteps. -/
def qcRuns (env : Env) (topic : String) : Nat → Nat
  | 0 => 0
  | n + 1 => qcRuns env topic n + countQC (run env topic n).frontier

/-- Researcher executions during the first `n` supersteps: every task
dispatched into a frontier runs exactly once, in the next superstep. -/
def resRuns (env : Env) (topic : String) : Nat → Nat
  | 0 => 0
  | n + 1 => resRuns env topic n + countRes (run env topic n).frontier

/-- The `(query, purpose, first 3 insights)` view of a result that is the
only information about a result entering the quality summary. -/
def summaryView (r : ResearchResult) : String × String × List String :=
  (r.query, r.purpose, r.key_insights.take 3)

/-- The bullet list `chr(10).join([f"• {insight}" ...])` of
nodes.py line 165. -/
def bulletInsights (l : List String) : String :=
  String.intercalate "\n" (l.map (fun insight => "• " ++ insight))

/-- The numbered list `chr(10).join([f"{i+1}. {rec}" ...])` of
nodes.py line 168. -/
def numberedRecs (l : List String) : String :=
  String.intercalate "\n" (l.enum.map (fun ir => toString (ir.1 + 1) ++ ". " ++ ir.2))

/-- The report formatting f-string of `deep_market_research`
(nodes.py lines 156-177). -/
def formatReport (r : FinalReport) : String :=
  "# " ++ r.title ++
  "\n\n## Resumen Ejecutivo\n" ++ r.executive_summary ++
  "\n\n## Análisis Detallado\n" ++ r.detailed_analysis ++
  "\n\n## Insights Clave\n" ++ bulletInsights r.key_insights ++
  "\n\n## Recomendaciones\n" ++ numberedRecs r.recommendations ++
  "\n\n## Metodología\n" ++ r.methodology ++
  "\n\n## Fuentes y Calidad de la Información\n" ++ r.sources_summary ++
  "\n\n---\n*Informe generado mediante investigación web avanzada con análisis automatizado de calidad*"

/-- `deep_market_research` (nodes.py lines 124-184).  The whole graph
invocation sits inside `try`, so its outcome is either an exception message
(`Except.error`), or a final state whose `report` key may be missing
(`result.get("report")` is `none`), or a report.  All three paths return a
string: the two error paths produce messages starting with "Error", the
success path the formatted report. -/
def deep_market_research (outcome : Except String (Option FinalReport)) : String :=
  match outcome with
  | Except.error e => "Error al ejecutar la investigación profunda: " ++ e
  | Except.ok none => "Error: No se pudo generar el informe de investigación."
  | Except.ok (some r) => formatReport r

/-- A trivial report for concrete environments. -/
def demoReport : FinalReport :=
  { title := "t", executive_summary := "e", detailed_analysis := "d"
    key_insights := [], recommendations := [], methodology := "m"
    sources_summary := "s" }

/-- A quality feedback that fails with one follow-up query. -/
def failFeedback : QualityFeedback :=
  { grade := Grade.fail, missing_aspects := []
    follow_up_queries := [{ search_query := "fq", purpose := "fp" }] }

/-- A concrete environment: one planned query, a failing search adapter, and
a Quality Gate that always grades fail with one follow-up query. -/
def demoEnv : Env :=
  { planResult :=
      { queries := [{ search_query := "q1", purpose := "p1" }]
        research_focus := "focus" }
    feedback := fun _ _ _ => failFeedback
    search := fun _ _ => Except.error "network unavailable"
    llm := fun _ => Except.error "llm unavailable"
    synth := fun _ _ _ => demoReport }

/-- A structurally valid plan with zero queries. -/
def emptyPlan : ResearchPlan :=
  { queries := [], research_focus := "enfoque" }

/-- `demoEnv` whose planner chain parses a plan with zero queries. -/
def emptyPlanEnv : Env :=
  { demoEnv with planResult := emptyPlan }

/-! ## Basic facts about the node functions and the update merge -/

theorem route_after_quality_check_eq (s : ResearchState) :
    route_after_quality_check s = Node.synthesizer := by
  unfold route_after_quality_check
  cases s.quality_check with
  | none => rfl
  | some fb => exact ite_self _

theorem enhanced_researcher_node_iterations
    (search : String → Nat → Except String (List String))
    (llm : String → Except String String) (query purpose topic : String) :
    (enhanced_researcher_node search llm query purpose topic).research_iterations
      = none := by
  rcases hs : search query 4 with e | snippets
  · simp [enhanced_researcher_node, hs]
  · rcases hl : llm (analysisPrompt topic purpose query (rawContentOf snippets))
      with e | content
    · simp [enhanced_researcher_node, hs, hl]
    · simp [enhanced_researcher_node, hs, hl]

theorem enhanced_researcher_node_length
    (search : String → Nat → Except String (List String))
    (llm : String → Except String String) (query purpose topic : String) :
    (enhanced_researcher_node search llm query purpose topic).search_results.length
      = 1 := by
  rcases hs : search query 4 with e | snippets
  · simp [enhanced_researcher_node, hs]
  · rcases hl : llm (analysisPrompt topic purpose query (rawContentOf snippets))
      with e | content
    · simp [enhanced_researcher_node, hs, hl]
    · simp [enhanced_researcher_node, hs, hl]

theorem foldl_search_results (us : List StateUpdate) (s : ResearchState) :
    (us.foldl applyUpdate s).search_results =
      s.search_results ++ (us.map StateUpdate.search_results).flatten := by
  induction us generalizing s with
  | nil => simp
  | cons u us ih =>
      simp only [List.foldl_cons, List.map_cons, List.flatten_cons, ih,
        applyUpdate, List.append_assoc]

theorem foldl_research_iterations (us : List StateUpdate) (s : ResearchState) :
    (us.foldl applyUpdate s).research_iterations =
      us.foldl (fun a u => ov u.research_iterations a) s.research_iterations := by
  induction us generalizing s with
  | nil => rfl
  | cons u us ih => simp only [List.foldl_cons, ih, applyUpdate]

theorem foldl_topic (us : List StateUpdate) (s : ResearchState) :
    (us.foldl applyUpdate s).topic = s.topic := by
  induction us generalizing s with
  | nil => rfl
  | cons u us ih => simp only [List.foldl_cons, ih, applyUpdate]

/-! ## Counting quality-checker and researcher tasks -/

theorem countQC_append (a b : List Node) :
    countQC (a ++ b) = countQC a + countQC b := by
  induction a with
  | nil => simp [countQC]
  | cons t ts ih =>
      cases t <;> simp [countQC, ih]
      omega

theorem countQC_eq_zero (l : List Node) : countQC l = 0 ↔ Node.qc ∉ l := by
  induction l with
  | nil => simp [countQC]
  | cons t ts ih => cases t <;> simp [countQC, ih]

theorem countQC_le_one_of_nodup (l : List Node) (h : l.Nodup) :
    countQC l ≤ 1 := by
  induction l with
  | nil => simp [countQC]
  | cons t ts ih =>
      have hmem := (List.nodup_cons.mp h).1
      have hnd := (List.nodup_cons.mp h).2
      cases t with
      | qc =>
          have h0 : countQC ts = 0 := (countQC_eq_zero ts).mpr hmem
          simp [countQC, h0]
      | planner => simpa [countQC] using ih hnd
      | researcher q p tp => simpa [countQC] using ih hnd
      | synthesizer => simpa [countQC] using ih hnd

/-! ## Shapes of the routing targets -/

theorem mem_enhanced_map_queries (s : ResearchState) (n : Node)
    (h : n ∈ enhanced_map_queries s) : ∃ q p, n = Node.researcher q p s.topic := by
  rcases List.mem_map.mp h with ⟨query, _, rfl⟩
  exact ⟨_, _, rfl⟩

theorem mem_map_follow_up_queries (s : ResearchState) (n : Node)
    (h : n ∈ map_follow_up_queries s) :
    (∃ q p, n = Node.researcher q p s.topic) ∧ getIter s < 3 := by
  rcases hqc : s.quality_check with _ | fb
  · simp [map_follow_up_queries, hqc] at h
  · simp only [map_follow_up_queries, hqc] at h
    split at h
    · rename_i hguard
      rcases List.mem_map.mp h with ⟨query, _, rfl⟩
      exact ⟨⟨_, _, rfl⟩, hguard.2.1⟩
    · simp at h

theorem mem_sendTargets (s : ResearchState) (t n : Node) (h : n ∈ sendTargets s t) :
    (∃ q p, n = Node.researcher q p s.topic) ∧
      (t = Node.planner ∨ (t = Node.qc ∧ getIter s < 3)) := by
  cases t with
  | planner =>
      simp only [sendTargets] at h
      exact ⟨mem_enhanced_map_queries s n h, Or.inl rfl⟩
  | qc =>
      simp only [sendTargets] at h
      have hm := mem_map_follow_up_queries s n h
      exact ⟨hm.1, Or.inr ⟨rfl, hm.2⟩⟩
  | researcher q p tp => simp [sendTargets] at h
  | synthesizer => simp [sendTargets] at h

theorem mem_edgeTargets (s : ResearchState) (t n : Node) (h : n ∈ edgeTargets s t) :
    (n = Node.qc ∧ ∃ q p tp, t = Node.researcher q p tp) ∨
      (n = Node.synthesizer ∧ t = Node.qc) := by
  cases t with
  | planner => simp [edgeTargets] at h
  | researcher q p tp =>
      simp [edgeTargets] at h
      exact Or.inl ⟨h, q, p, tp, rfl⟩
  | qc =>
      simp [edgeTargets, route_after_quality_check_eq] at h
      exact Or.inr ⟨h, rfl⟩
  | synthesizer => simp [edgeTargets] at h

theorem mem_step_frontier (env : Env) (c : Config) (n : Node)
    (h : n ∈ (step env c).frontier) :
    ∃ t, t ∈ c.frontier ∧
      (n ∈ sendTargets (step env c).state t ∨ n ∈ edgeTargets (step env c).state t) := by
  simp only [step, stepFrontier] at h
  rcases List.mem_append.mp h with hs | he
  · rcases List.mem_flatten.mp hs with ⟨l, hl, hn⟩
    rcases List.mem_map.mp hl with ⟨t, ht, rfl⟩
    exact ⟨t, ht, Or.inl hn⟩
  · rcases List.mem_flatten.mp (List.mem_dedup.mp he) with ⟨l, hl, hn⟩
    rcases List.mem_map.mp hl with ⟨t, ht, rfl⟩
    exact ⟨t, ht, Or.inr hn⟩

/-! ## The iteration counter and the result accumulator across one superstep -/

theorem ov_none {α : Type} (b : Option α) : ov none b = b := rfl

theorem ov_some {α : Type} (v : α) (b : Option α) : ov (some v) b = some v := rfl

theorem runNode_iterations_none (env : Env) (s : ResearchState) (t : Node)
    (hp : t ≠ Node.planner) (hq : t ≠ Node.qc) :
    (runNode env s t).research_iterations = none := by
  cases t with
  | planner => exact absurd rfl hp
  | qc => exact absurd rfl hq
  | researcher q p tp =>
      exact enhanced_researcher_node_iterations env.search env.llm q p tp
  | synthesizer => rfl

theorem iterFold_no_qc (env : Env) (s : ResearchState) (ts : List Node)
    (hq : Node.qc ∉ ts) (hp : Node.planner ∉ ts) (a : Option Nat) :
    (ts.map (runNode env s)).foldl (fun a u => ov u.research_iterations a) a = a := by
  induction ts generalizing a with
  | nil => rfl
  | cons t ts ih =>
      have ht : (runNode env s t).research_iterations = none :=
        runNode_iterations_none env s t
          (fun h => hp (h ▸ List.mem_cons_self t ts))
          (fun h => hq (h ▸ List.mem_cons_self t ts))
      simp only [List.map_cons, List.foldl_cons, ht, ov_none]
      exact ih (fun h => hq (List.mem_cons_of_mem t h))
        (fun h => hp (List.mem_cons_of_mem t h)) a

theorem iterFold_qc (env : Env) (s : ResearchState) (ts : List Node)
    (hp : Node.planner ∉ ts) (hq : Node.qc ∈ ts) (a : Option Nat) :
    (ts.map (runNode env s)).foldl (fun a u => ov u.research_iterations a) a
      = some (getIter s + 1) := by
  induction ts generalizing a with
  | nil => simp at hq
  | cons t ts ih =>
      have hp' : Node.planner ∉ ts := fun h => hp (List.mem_cons_of_mem t h)
      by_cases hmem : Node.qc ∈ ts
      · cases t with
        | planner => exact absurd (List.mem_cons_self _ _) hp
        | qc =>
            simp only [List.map_cons, List.foldl_cons]
            exact ih hp' hmem _
        | researcher q p tp =>
            simp only [List.map_cons, List.foldl_cons]
            exact ih hp' hmem _
        | synthesizer =>
            simp only [List.map_cons, List.foldl_cons]
            exact ih hp' hmem _
      · have ht : t = Node.qc := by
          rcases List.mem_cons.mp hq with h | h
          · exact h.symm
          · exact absurd h hmem
        subst ht
        simp only [List.map_cons, List.foldl_cons]
        have hv : (runNode env s Node.qc).research_iterations
            = some (getIter s + 1) := rfl
        rw [hv, ov_some]
        exact iterFold_no_qc env s ts hmem hp' _

theorem step_research_iterations (env : Env) (c : Config)
    (hp : Node.planner ∉ c.frontier) :
    (step env c).state.research_iterations =
      if Node.qc ∈ c.frontier then some (getIter c.state + 1)
      else c.state.research_iterations := by
  show (stepState env c).research_iterations = _
  unfold stepState
  rw [foldl_research_iterations]
  by_cases hmem : Node.qc ∈ c.frontier
  · rw [if_pos hmem]
    exact iterFold_qc env c.state c.frontier hp hmem _
  · rw [if_neg hmem]
    exact iterFold_no_qc env c.state c.frontier hmem hp _

theorem step_getIter (env : Env) (c : Config) (hp : Node.planner ∉ c.frontier) :
    getIter (step env c).state =
      if Node.qc ∈ c.frontier then getIter c.state + 1 else getIter c.state := by
  unfold getIter
  rw [step_research_iterations env c hp]
  by_cases hmem : Node.qc ∈ c.frontier <;> simp [hmem, getIter]

theorem updates_results_length (env : Env) (s : ResearchState) (ts : List Node) :
    ((ts.map (runNode env s)).map StateUpdate.search_results).flatten.length
      = countRes ts := by
  induction ts with
  | nil => rfl
  | cons t ts ih =>
      cases t with
      | planner => simpa [countRes, runNode, plannerUpdate] using ih
      | qc => simpa [countRes, runNode, quality_checker_node] using ih
      | synthesizer => simpa [countRes, runNode, enhanced_synthesizer_node] using ih
      | researcher q p tp =>
          simp only [List.map_cons, List.flatten_cons, List.length_append, ih,
            runNode, enhanced_researcher_node_length, countRes]
          omega

theorem step_search_results (env : Env) (c : Config) :
    (step env c).state.search_results = c.state.search_results ++
      ((c.frontier.map (runNode env c.state)).map StateUpdate.search_results).flatten := by
  show (stepState env c).search_results = _
  unfold stepState
  exact foldl_search_results _ _

theorem step_search_results_length (env : Env) (c : Config) :
    (step env c).state.search_results.length =
      c.state.search_results.length + countRes c.frontier := by
  rw [step_search_results, List.length_append, updates_results_length]

theorem step_topic (env : Env) (c : Config) :
    (step env c).state.topic = c.state.topic := by
  show (stepState env c).topic = _
  unfold stepState
  exact foldl_topic _ _

/-! ## Which tasks can follow which across a superstep -/

theorem qc_not_mem_sendTargets (s : ResearchState) (t : Node) :
    Node.qc ∉ sendTargets s t := by
  intro h
  rcases (mem_sendTargets s t _ h).1 with ⟨q, p, hqp⟩
  exact Node.noConfusion hqp

theorem planner_not_mem_step (env : Env) (c : Config) :
    Node.planner ∉ (step env c).frontier := by
  intro h
  rcases mem_step_frontier env c _ h with ⟨t, _, hin | hin⟩
  · rcases (mem_sendTargets _ _ _ hin).1 with ⟨q, p, hqp⟩
    exact Node.noConfusion hqp
  · rcases mem_edgeTargets _ _ _ hin with ⟨hn, _⟩ | ⟨hn, _⟩
    · exact Node.noConfusion hn
    · exact Node.noConfusion hn

theorem qc_mem_step (env : Env) (c : Config) (h : Node.qc ∈ (step env c).frontier) :
    ∃ q p tp, Node.researcher q p tp ∈ c.frontier := by
  rcases mem_step_frontier env c _ h with ⟨t, ht, hin | hin⟩
  · exact absurd hin (qc_not_mem_sendTargets _ _)
  · rcases mem_edgeTargets _ _ _ hin with ⟨_, q, p, tp, htq⟩ | ⟨hn, _⟩
    · exact ⟨q, p, tp, htq ▸ ht⟩
    · exact Node.noConfusion hn

theorem researcher_mem_step (env : Env) (c : Config) (q p tp : String)
    (hp : Node.planner ∉ c.frontier)
    (h : Node.researcher q p tp ∈ (step env c).frontier) :
    Node.qc ∈ c.frontier ∧ getIter (step env c).state < 3 := by
  rcases mem_step_frontier env c _ h with ⟨t, ht, hin | hin⟩
  · rcases mem_sendTargets _ _ _ hin with ⟨_, htp | ⟨htq, hiter⟩⟩
    · exact absurd (htp ▸ ht) hp
    · exact ⟨htq ▸ ht, hiter⟩
  · rcases mem_edgeTargets _ _ _ hin with ⟨hn, _⟩ | ⟨hn, _⟩
    · exact Node.noConfusion hn
    · exact Node.noConfusion hn

theorem step_countQC_le_one (env : Env) (c : Config) :
    countQC (step env c).frontier ≤ 1 := by
  show countQC (stepFrontier env c) ≤ 1
  unfold stepFrontier
  rw [countQC_append]
  have h0 : countQC (c.frontier.map (sendTargets (stepState env c))).flatten = 0 := by
    rw [countQC_eq_zero]
    intro h
    rcases List.mem_flatten.mp h with ⟨l, hl, hn⟩
    rcases List.mem_map.mp hl with ⟨t, _, rfl⟩
    exact qc_not_mem_sendTargets _ _ hn
  rw [h0]
  simpa using countQC_le_one_of_nodup _ (List.nodup_dedup _)

/-! ## The reachable-configuration invariant -/

/-- Invariant of every configuration reached after the planner superstep:
the planner never reappears, at most one quality-checker task is pending,
the counter is bounded by 3, a pending quality check implies a counter at
most 2 and no sibling researcher tasks, and pending researcher tasks imply a
counter at most 2. -/
def GoodConfig (c : Config) : Prop :=
  Node.planner ∉ c.frontier ∧
  countQC c.frontier ≤ 1 ∧
  getIter c.state ≤ 3 ∧
  (Node.qc ∈ c.frontier →
    getIter c.state ≤ 2 ∧ ∀ q p tp, Node.researcher q p tp ∉ c.frontier) ∧
  (∀ q p tp, Node.researcher q p tp ∈ c.frontier → getIter c.state ≤ 2)

theorem step_good (env : Env) (c : Config) (h : GoodConfig c) :
    GoodConfig (step env c) ∧
      getIter (step env c).state = getIter c.state + countQC c.frontier := by
  obtain ⟨hp, hcq, hiter3, hqcmem, hres⟩ := h
  have hstep := step_getIter env c hp
  have hiter' : getIter (step env c).state = getIter c.state + countQC c.frontier := by
    by_cases hmem : Node.qc ∈ c.frontier
    · rw [hstep, if_pos hmem]
      have h1 : countQC c.frontier ≠ 0 :=
        fun h0 => ((countQC_eq_zero _).mp h0) hmem
      omega
    · rw [hstep, if_neg hmem]
      have h0 : countQC c.frontier = 0 := (countQC_eq_zero _).mpr hmem
      omega
  refine ⟨⟨planner_not_mem_step env c, step_countQC_le_one env c, ?_, ?_, ?_⟩, hiter'⟩
  · by_cases hmem : Node.qc ∈ c.frontier
    · have h2 := (hqcmem hmem).1
      rw [hstep, if_pos hmem]
      omega
    · rw [hstep, if_neg hmem]
      exact hiter3
  · intro hq'
    rcases qc_mem_step env c hq' with ⟨q, p, tp, hr⟩
    have h2 : getIter c.state ≤ 2 := hres q p tp hr
    have hqnot : Node.qc ∉ c.frontier := by
      intro hqm
      exact (hqcmem hqm).2 q p tp hr
    refine ⟨?_, ?_⟩
    · rw [hstep, if_neg hqnot]
      exact h2
    · intro q' p' tp' hr'
      exact hqnot (researcher_mem_step env c q' p' tp' hp hr').1
  · intro q p tp hr'
    have h3 := (researcher_mem_step env c q p tp hp hr').2
    omega

theorem run_invariant (env : Env) (topic : String) :
    ∀ n, GoodConfig (run env topic (n + 1)) ∧
      getIter (run env topic (n + 1)).state = qcRuns env topic (n + 1) := by
  intro n
  induction n with
  | zero =>
      constructor
      · refine ⟨planner_not_mem_step env _, step_countQC_le_one env _, ?_, ?_, ?_⟩
        · have h0 : getIter (run env topic (0 + 1)).state = 0 := rfl
          omega
        · intro hq
          rcases qc_mem_step env (run env topic 0) hq with ⟨q, p, tp, hr⟩
          simp [run, initialConfig] at hr
        · intro q p tp _
          have h0 : getIter (run env topic (0 + 1)).state = 0 := rfl
          omega
      · rfl
  | succ n ih =>
      have hs := step_good env (run env topic (n + 1)) ih.1
      refine ⟨hs.1, ?_⟩
      have hr : run env topic (n + 2) = step env (run env topic (n + 1)) := rfl
      rw [hr, hs.2, ih.2]
      rfl

theorem run_getIter_eq_qcRuns (env : Env) (topic : String) (n : Nat) :
    getIter (run env topic n).state = qcRuns env topic n := by
  cases n with
  | zero => rfl
  | succ n => exact (run_invariant env topic n).2

theorem run_getIter_le_three (env : Env) (topic : String) (n : Nat) :
    getIter (run env topic n).state ≤ 3 := by
  cases n with
  | zero =>
      have h0 : getIter (run env topic 0).state = 0 := rfl
      omega
  | succ n => exact (run_invariant env topic n).1.2.2.1

theorem qcRuns_le_three (env : Env) (topic : String) (n : Nat) :
    qcRuns env topic n ≤ 3 := by
  have h := run_getIter_eq_qcRuns env topic n
  have h3 := run_getIter_le_three env topic n
  omega

theorem run_results_length (env : Env) (topic : String) :
    ∀ n, (run env topic n).state.search_results.length = resRuns env topic n := by
  intro n
  induction n with
  | zero => rfl
  | succ n ih =>
      have hr : run env topic (n + 1) = step env (run env topic n) := rfl
      rw [hr, step_search_results_length, ih]
      rfl

theorem run_results_append (env : Env) (topic : String) (n : Nat) :
    ∃ t, (run env topic (n + 1)).state.search_results =
      (run env topic n).state.search_results ++ t :=
  ⟨_, step_search_results env (run env topic n)⟩

/-! ## Claim theorems -/

/-- C2: for every execution of the pipeline — whatever grades, follow-up
queries or adapter outcomes the environment produces, and at every number of
supersteps — the iteration counter `research_iterations` never exceeds 3 and
the quality checker has run at most 3 times. -/
theorem research_iterations_never_exceed_three (env : Env) (topic : String)
    (n : Nat) :
    getIter (run env topic n).state ≤ 3 ∧ qcRuns env topic n ≤ 3 :=
  ⟨run_getIter_le_three env topic n, qcRuns_le_three env topic n⟩

/-- C4: the accumulated `search_results` collection is append-only — the
state after each superstep extends the previous collection (no entry is
replaced or removed) — and after every superstep its length equals the total
number of researcher invocations dispatched and executed so far (each one,
successful or failed, appended exactly one result). -/
theorem search_results_append_only (env : Env) (topic : String) (n : Nat) :
    (∃ t, (run env topic (n + 1)).state.search_results =
        (run env topic n).state.search_results ++ t) ∧
    (run env topic n).state.search_results.length = resRuns env topic n :=
  ⟨run_results_append env topic n, run_results_length env topic n⟩

/-- C6: the planner initialises the counter to 0; every quality-checker run
writes back exactly the read counter plus 1, whatever feedback (pass or
fail) the environment returns; and along every execution the counter equals
the number of quality-checker runs so far, so after the k-th run it is k. -/
theorem quality_gate_increments_counter (env : Env) (topic : String) (n : Nat)
    (s : ResearchState) (p : ResearchPlan) :
    (plannerUpdate p).research_iterations = some 0 ∧
    (applyUpdate s (quality_checker_node env s)).research_iterations
      = some (getIter s + 1) ∧
    getIter (run env topic n).state = qcRuns env topic n :=
  ⟨rfl, rfl, run_getIter_eq_qcRuns env topic n⟩

/-- C5 counterexample: the planner does not fail on a plan with fewer than 1
query — a successfully parsed empty plan is accepted (`Except.ok`, not an
error), and the pipeline proceeds with it: after the planner superstep the
state holds the 0-query plan and zero researchers are dispatched. -/
theorem planner_accepts_empty_plan :
    enhanced_planner_node (Except.ok emptyPlan) = Except.ok (plannerUpdate emptyPlan) ∧
    emptyPlan.queries.length = 0 ∧
    (run emptyPlanEnv "tema" 1).state.plan = some emptyPlan ∧
    (run emptyPlanEnv "tema" 1).frontier = [] :=
  ⟨rfl, rfl, rfl, rfl⟩

/-- C5 amended: the planner fails fatally exactly when the synthesis adapter
fails (the error propagates unchanged); any successfully parsed plan is
accepted as-is with the counter initialised to 0, regardless of how many
queries it contains — the fewer-than-1-query condition is not checked. -/
theorem planner_failure_propagation (outcome : Except String ResearchPlan) :
    (∀ e, outcome = Except.error e →
      enhanced_planner_node outcome = Except.error e) ∧
    (∀ p, outcome = Except.ok p →
      enhanced_planner_node outcome = Except.ok (plannerUpdate p)) := by
  constructor
  · intro e he
    subst he
    rfl
  · intro p hp
    subst hp
    rfl

/-- C5 amended, witness: a failing adapter outcome propagates unchanged. -/
theorem planner_failure_propagation_witness :
    enhanced_planner_node (Except.error "fallo del adaptador")
      = Except.error "fallo del adaptador" :=
  (planner_failure_propagation (Except.error "fallo del adaptador")).1 _ rfl

/-- C10: the tool entry point `deep_market_research` always returns a
string: for every pipeline outcome it is either the formatted report (when
the pipeline finished with a report in the final state) or an error message
beginning with "Error" (both when the pipeline raised and when the final
state has no report). -/
theorem deep_market_research_total (outcome : Except String (Option FinalReport)) :
    (∃ r, outcome = Except.ok (some r) ∧
      deep_market_research outcome = formatReport r) ∨
    (∃ rest, deep_market_research outcome = "Error" ++ rest) := by
  match outcome with
  | Except.error e =>
      right
      refine ⟨" al ejecutar la investigación profunda: " ++ e, ?_⟩
      show "Error al ejecutar la investigación profunda: " ++ e = _
      rw [show ("Error al ejecutar la investigación profunda: " : String)
            = "Error" ++ " al ejecutar la investigación profunda: " from rfl,
          String.append_assoc]
  | Except.ok none =>
      right
      exact ⟨": No se pudo generar el informe de investigación.", rfl⟩
  | Except.ok (some r) =>
      left
      exact ⟨r, rfl, rfl⟩

/-- C7: for every environment and topic, the frontier after the planner
superstep (the initial fan-out) is exactly one researcher `Send` per entry
of `plan.queries`, carrying that query's `search_query` and `purpose` plus
the shared topic; in particular its length equals `len(plan.queries)`. -/
theorem initial_fan_out_matches_plan (env : Env) (topic : String) :
    (run env topic 1).frontier =
      env.planResult.queries.map
        (fun query => Node.researcher query.search_query query.purpose topic) ∧
    (run env topic 1).frontier.length = env.planResult.queries.length := by
  have h : (run env topic 1).frontier =
      env.planResult.queries.map
        (fun query => Node.researcher query.search_query query.purpose topic) := by
    show stepFrontier env (initialConfig topic) = _
    simp [stepFrontier, stepState, initialConfig, initialState, sendTargets,
      edgeTargets, runNode, plannerUpdate, applyUpdate, enhanced_map_queries,
      planQueries, ov]
  exact ⟨h, by rw [h, List.length_map]⟩

/-- C3: the researcher never propagates an adapter failure and always
produces exactly one result: whatever the two adapters do the update carries
exactly one `ResearchResult`, and if the search call fails — or the search
succeeds and the insight-extraction call fails — that single result's
content is the error description and its `key_insights` is exactly the one
sentinel string. -/
theorem researcher_absorbs_adapter_failures
    (search : String → Nat → Except String (List String))
    (llm : String → Except String String) (query purpose topic : String) :
    (enhanced_researcher_node search llm query purpose topic).search_results.length
      = 1 ∧
    (∀ e, search query 4 = Except.error e →
      (enhanced_researcher_node search llm query purpose topic).search_results =
        [{ query := query, purpose := purpose
           content := "Error al obtener información: " ++ e
           key_insights := [errorSentinel] }]) ∧
    (∀ snippets e, search query 4 = Except.ok snippets →
      llm (analysisPrompt topic purpose query (rawContentOf snippets))
        = Except.error e →
      (enhanced_researcher_node search llm query purpose topic).search_results =
        [{ query := query, purpose := purpose
           content := "Error al obtener información: " ++ e
           key_insights := [errorSentinel] }]) := by
  refine ⟨enhanced_researcher_node_length search llm query purpose topic, ?_, ?_⟩
  · intro e he
    simp [enhanced_researcher_node, he]
  · intro snippets e hs hl
    simp [enhanced_researcher_node, hs, hl]

/-- C3 witness: with a failing search adapter the researcher produces the
single sentinel-marked result. -/
theorem researcher_absorbs_adapter_failures_witness :
    (enhanced_researcher_node (fun _ _ => Except.error "net down")
        (fun _ => Except.error "llm down") "q" "p" "t").search_results =
      [{ query := "q", purpose := "p"
         content := "Error al obtener información: net down"
         key_insights := [errorSentinel] }] :=
  (researcher_absorbs_adapter_failures (fun _ _ => Except.error "net down")
      (fun _ => Except.error "llm down") "q" "p" "t").2.1 "net down" rfl

/-- C9: every result the researcher produces carries at most 5
`key_insights` (the success path truncates to the first 5, the error path
has exactly the one sentinel), and the researcher consults the search
adapter only at result count 4: two search adapters agreeing on
`max_results = 4` yield identical researcher outputs. -/
theorem researcher_result_bounds
    (search search₂ : String → Nat → Except String (List String))
    (llm : String → Except String String) (query purpose topic : String) :
    (∀ r ∈ (enhanced_researcher_node search llm query purpose topic).search_results,
      r.key_insights.length ≤ 5) ∧
    ((∀ q, search q 4 = search₂ q 4) →
      enhanced_researcher_node search llm query purpose topic =
        enhanced_researcher_node search₂ llm query purpose topic) := by
  constructor
  · intro r hr
    rcases hs : search query 4 with e | snippets
    · simp [enhanced_researcher_node, hs] at hr
      subst hr
      simp
    · rcases hl : llm (analysisPrompt topic purpose query (rawContentOf snippets))
        with e | content
      · simp [enhanced_researcher_node, hs, hl] at hr
        subst hr
        simp
      · simp [enhanced_researcher_node, hs, hl] at hr
        subst hr
        show (extractInsights content).length ≤ 5
        unfold extractInsights
        have h := List.length_take 5 (((content.splitOn "\n").map String.trim).filter
          (fun i => i ≠ "" ∧ ¬ i.startsWith "#"))
        omega
  · intro hagree
    unfold enhanced_researcher_node
    rw [hagree query]

/-- C9 witness: the bound and the max-results dependency at concrete
adapters. -/
theorem researcher_result_bounds_witness :
    ({ query := "q", purpose := "p"
       content := "Error al obtener información: down"
       key_insights := [errorSentinel] } : ResearchResult).key_insights.length ≤ 5 ∧
    enhanced_researcher_node (fun _ _ => Except.error "down")
        (fun _ => Except.error "x") "q" "p" "t" =
      enhanced_researcher_node (fun _ _ => Except.error "down")
        (fun _ => Except.error "x") "q" "p" "t" :=
  ⟨(researcher_result_bounds (fun _ _ => Except.error "down")
      (fun _ _ => Except.error "down") (fun _ => Except.error "x") "q" "p" "t").1
      _ (by decide),
    (researcher_result_bounds (fun _ _ => Except.error "down")
      (fun _ _ => Except.error "down") (fun _ => Except.error "x") "q" "p" "t").2
      (fun q => rfl)⟩

/-- C8: the quality gate's insight truncation is presentation-only.  Its
stored update leaves `search_results` exactly unchanged; its summary string
depends only on each result's `(query, purpose, first 3 insights)` view (so
insights beyond the first 3 and the content never reach it); and the
research data the synthesizer later builds from the post-quality-check state
is the one of the untruncated stored results. -/
theorem quality_gate_truncation_presentation_only (env : Env)
    (s : ResearchState) (rs rs₂ : List ResearchResult) :
    (applyUpdate s (quality_checker_node env s)).search_results
      = s.search_results ∧
    (rs.map summaryView = rs₂.map summaryView →
      research_summary rs = research_summary rs₂) ∧
    research_data (applyUpdate s (quality_checker_node env s)).search_results
      = research_data s.search_results := by
  have happ : (applyUpdate s (quality_checker_node env s)).search_results
      = s.search_results := by
    show s.search_results ++ (quality_checker_node env s).search_results
      = s.search_results
    simp [quality_checker_node]
  refine ⟨happ, ?_, by rw [happ]⟩
  intro hview
  unfold research_summary
  have hmap : ∀ (l : List ResearchResult), l.map (fun res =>
      "**Búsqueda**: " ++ res.query ++
      "\n**Propósito**: " ++ res.purpose ++
      "\n**Insights**: " ++ String.intercalate ", " (res.key_insights.take 3))
      = (l.map summaryView).map (fun v =>
      "**Búsqueda**: " ++ v.1 ++
      "\n**Propósito**: " ++ v.2.1 ++
      "\n**Insights**: " ++ String.intercalate ", " v.2.2) := by
    intro l
    rw [List.map_map]
    rfl
  rw [hmap, hmap, hview]

/-- C8 witness: two result lists agreeing on queries, purposes and first 3
insights — but differing in content and in a 4th insight — produce the same
quality summary. -/
theorem quality_gate_truncation_witness :
    research_summary
        [{ query := "q", purpose := "p", content := "c"
           key_insights := ["a", "b", "c", "d"] }]
      = research_summary
        [{ query := "q", purpose := "p", content := "otro"
           key_insights := ["a", "b", "c", "e"] }] :=
  (quality_gate_truncation_presentation_only demoEnv (initialState "t")
      [{ query := "q", purpose := "p", content := "c"
         key_insights := ["a", "b", "c", "d"] }]
      [{ query := "q", purpose := "p", content := "otro"
         key_insights := ["a", "b", "c", "e"] }]).2.1 (by decide)

/-- C1: the two branches out of the quality checker are not mutually
exclusive.  In a concrete reachable execution (one planned query whose
search fails, quality feedback "fail" with one follow-up query, iteration
count 1 < 3), the superstep after the first quality-checker run contains
both the follow-up researcher Send and the synthesizer:
`route_after_quality_check` returns the synthesizer unconditionally, so the
pipeline transitions to synthesis even when it takes the follow-up branch,
contradicting the claimed exclusive otherwise-branch. -/
theorem quality_gate_branches_both_taken :
    (run demoEnv "tema" 3).frontier
      = [Node.researcher "fq" "fp" "tema", Node.synthesizer] ∧
    (run demoEnv "tema" 3).state.quality_check = some failFeedback ∧
    getIter (run demoEnv "tema" 3).state = 1 ∧
    map_follow_up_queries (run demoEnv "tema" 3).state
      = [Node.researcher "fq" "fp" "tema"] ∧
    route_after_quality_check (run demoEnv "tema" 3).state = Node.synthesizer :=
  ⟨rfl, rfl, rfl, rfl, rfl⟩
